import Mathlib

/-!
Verification of the K-line monitoring/analysis scripts.

Shallow embedding of the computational core of the repository:
  * `zftj.py`    — `SingleCoinAmplitudeAnalyzer` (spot, range amplitude for all bars);
  * `ZF1.py`     — `SingleCoinAmplitudeAnalyzer` (futures, two amplitude modes,
                   down bars only);
  * `振幅平均60.py` — `BinanceKlineAnalyzer` (amplitude summary statistics and
                   bucket distribution; embedded here under the prefix `amp60_`);
  * `11bot.py`   — `monitor_market` (per-symbol alert cycle).

Prices and volumes are modelled as rationals (the scripts use Python floats;
every property checked here is exact arithmetic).  Fallible fetches are
modelled as `Option`: `none` is the `None` / raised-exception path.
-/

/-- One candlestick, as parsed by every script from a fixed-position array
`[open_time, open, high, low, close, volume, ...]`. -/
structure Kline where
  open_time : Int
  open_price : ℚ
  high_price : ℚ
  low_price : ℚ
  close_price : ℚ
  volume : ℚ
deriving DecidableEq, Inhabited

/-- One per-bar analysis record, the dict appended to `results` by
`analyze_klines` in both `zftj.py` (lines 120–130) and `ZF1.py` (lines 88–98).
The `time` string of the source is kept as the raw `open_time` stamp
(`datetime` formatting is presentation only). -/
structure KlineResult where
  index : ℕ
  open_time : Int
  open_price : ℚ
  high_price : ℚ
  low_price : ℚ
  close_price : ℚ
  volume : ℚ
  amplitude : ℚ
  change_percent : ℚ
deriving DecidableEq, Inhabited

/-- Amplitude of `zftj.py`, lines 105–109:
`(high - low) / low * 100` when `low_price > 0`, else `0.0`. -/
def zftj_amplitude (k : Kline) : ℚ :=
  if 0 < k.low_price then (k.high_price - k.low_price) / k.low_price * 100 else 0

/-- Change percent of `zftj.py`, lines 111–115:
`(close - open) / open * 100` when `open_price > 0`, else `0.0`. -/
def zftj_change_percent (k : Kline) : ℚ :=
  if 0 < k.open_price then (k.close_price - k.open_price) / k.open_price * 100 else 0

/-- One result row of `zftj.py` `analyze_klines` (lines 95–130); `i` is the
0-based `enumerate` position, stored as `i + 1`. -/
def zftj_result (i : ℕ) (k : Kline) : KlineResult :=
  { index := i + 1
    open_time := k.open_time
    open_price := k.open_price
    high_price := k.high_price
    low_price := k.low_price
    close_price := k.close_price
    volume := k.volume
    amplitude := zftj_amplitude k
    change_percent := zftj_change_percent k }

/-- The analysis loop of `zftj.py` `analyze_klines` (lines 73–132).  The
argument is the result of `get_kline_data`: `none` is the fetch-failure
(`None`) path; `if not kline_data: return []` also maps the empty payload
to `[]`. -/
def zftj_analyze_klines (fetched : Option (List Kline)) : List KlineResult :=
  match fetched with
  | none => []
  | some ks => if ks.isEmpty then [] else ks.enum.map fun p => zftj_result p.1 p.2

/-- The two `amplitude_mode` values of `ZF1.py` (class docstring, lines 10–12). -/
inductive AmplitudeMode where
  | down_percent
  | range
deriving DecidableEq

/-- Amplitude of `ZF1.py`, lines 78–83: mode `range` is
`(high - low) / low * 100` guarded by `low_price > 0`, mode `down_percent` is
`(open - low) / open * 100` guarded by `open_price > 0`; each guard yields
`0.0`. -/
def ZF1_amplitude (mode : AmplitudeMode) (k : Kline) : ℚ :=
  match mode with
  | .range => if 0 < k.low_price then (k.high_price - k.low_price) / k.low_price * 100 else 0
  | .down_percent => if 0 < k.open_price then (k.open_price - k.low_price) / k.open_price * 100 else 0

/-- Change percent of `ZF1.py`, line 85: `(close - open) / open * 100` when
`open_price > 0`, else `0.0`. -/
def ZF1_change_percent (k : Kline) : ℚ :=
  if 0 < k.open_price then (k.close_price - k.open_price) / k.open_price * 100 else 0

/-- One result row of `ZF1.py` `analyze_klines` (lines 88–98). -/
def ZF1_result (mode : AmplitudeMode) (i : ℕ) (k : Kline) : KlineResult :=
  { index := i + 1
    open_time := k.open_time
    open_price := k.open_price
    high_price := k.high_price
    low_price := k.low_price
    close_price := k.close_price
    volume := k.volume
    amplitude := ZF1_amplitude mode k
    change_percent := ZF1_change_percent k }

/-- Insertion step for the descending amplitude sort, modelling
`sorted(results, key=lambda x: x['amplitude'], reverse=True)`
(`ZF1.py`, line 101); tie order is immaterial to every property proved. -/
def insertDescBy (key : KlineResult → ℚ) (x : KlineResult) : List KlineResult → List KlineResult
  | [] => [x]
  | y :: ys => if key y ≤ key x then x :: y :: ys else y :: insertDescBy key x ys

/-- Descending sort by key, modelling `sorted(..., reverse=True)`. -/
def sortDescBy (key : KlineResult → ℚ) : List KlineResult → List KlineResult
  | [] => []
  | x :: xs => insertDescBy key x (sortDescBy key xs)

/-- The analysis loop of `ZF1.py` `analyze_klines` (lines 53–102): fetch
failure (`None`) and the empty payload give `[]`; every bar with
`close_price >= open_price` is skipped by the `continue` (line 74) whatever
the mode; the kept rows are sorted by amplitude, descending. -/
def ZF1_analyze_klines (fetched : Option (List Kline)) (mode : AmplitudeMode) : List KlineResult :=
  match fetched with
  | none => []
  | some ks =>
    if ks.isEmpty then [] else
    sortDescBy (fun r => r.amplitude)
      (((ks.enum).filter fun p => p.2.close_price < p.2.open_price).map
        fun p => ZF1_result mode p.1 p.2)

/-- Amplitude of `振幅平均60.py`, lines 123–127:
`(high - low) / open * 100` when `open_price > 0`, else `0` — the
denominator is the OPEN price in this script. -/
def amp60_amplitude (k : Kline) : ℚ :=
  if 0 < k.open_price then (k.high_price - k.low_price) / k.open_price * 100 else 0

/-- Requested `limit` parameter actually sent by `ZF1.py` `get_kline_data`,
line 41: `min(max(1, int(limit)), 1000)`. -/
def ZF1_request_limit (limit : Int) : Int :=
  min (max 1 limit) 1000

/-- Requested `limit` parameter actually sent by `zftj.py` `get_kline_data`,
lines 55–59: passed through unchanged. -/
def zftj_request_limit (limit : Int) : Int :=
  limit

/-- Requested `limit` parameter actually sent by `振幅平均60.py` `get_klines`,
lines 73–77: passed through unchanged. -/
def amp60_request_limit (limit : Int) : Int :=
  limit

/-- Ascending insertion, the sorting step behind `statistics.median`. -/
def insertAsc (x : ℚ) : List ℚ → List ℚ
  | [] => [x]
  | y :: ys => if x ≤ y then x :: y :: ys else y :: insertAsc x ys

/-- Ascending sort of a list of rationals (`statistics.median` sorts its
input before picking the middle). -/
def sortAsc : List ℚ → List ℚ
  | [] => []
  | x :: xs => insertAsc x (sortAsc xs)

/-- Arithmetic mean, `statistics.mean` as used at `振幅平均60.py` line 152
(the caller has already ruled out the empty list). -/
def amp60_mean (l : List ℚ) : ℚ :=
  l.sum / l.length

/-- Median, `statistics.median` as used at `振幅平均60.py` line 155: the middle
element of the sorted list, or the mean of the two middle elements. -/
def amp60_median (l : List ℚ) : ℚ :=
  let s := sortAsc l
  if l.length % 2 = 1 then s.getD (l.length / 2) 0
  else (s.getD (l.length / 2 - 1) 0 + s.getD (l.length / 2) 0) / 2

/-- Maximum of a list, `max(amplitudes)` at `振幅平均60.py` line 153
(the caller has already ruled out the empty list). -/
def amp60_max : List ℚ → ℚ
  | [] => 0
  | x :: xs => xs.foldl max x

/-- Minimum of a list, `min(amplitudes)` at `振幅平均60.py` line 154. -/
def amp60_min : List ℚ → ℚ
  | [] => 0
  | x :: xs => xs.foldl min x

/-- Square of the sample standard deviation computed at `振幅平均60.py`
lines 157–161: `statistics.stdev(amplitudes)` when `len(amplitudes) > 1`,
else `0`.  `statistics.stdev` is the square root of
`sum((x - mean)^2) / (n - 1)`; the square is kept so the definition stays in
exact rational arithmetic — the guard and the zero sentinel carry over
unchanged (`stdev = 0` iff this square is `0`). -/
def amp60_std_deviation_sq (l : List ℚ) : ℚ :=
  if 1 < l.length then ((l.map fun x => (x - amp60_mean l) ^ 2).sum) / (l.length - 1) else 0

/-- The `summary` dict assembled by `calculate_amplitude` at `振幅平均60.py`
lines 173–182 (`std_deviation` recorded through its square, see
`amp60_std_deviation_sq`). -/
structure AmplitudeSummary where
  total_klines : ℕ
  average_amplitude : ℚ
  median_amplitude : ℚ
  max_amplitude : ℚ
  min_amplitude : ℚ
  std_deviation_sq : ℚ
  amplitude_range : ℚ
deriving DecidableEq

/-- Summary-statistics part of `calculate_amplitude` (`振幅平均60.py`
lines 148–182): raises `ValueError` on an empty amplitude list (modelled as
`none`), otherwise returns mean, median, max, min, the guarded sample
standard deviation and the max-min range. -/
def amp60_summary (amps : List ℚ) : Option AmplitudeSummary :=
  if amps = [] then none
  else some
    { total_klines := amps.length
      average_amplitude := amp60_mean amps
      median_amplitude := amp60_median amps
      max_amplitude := amp60_max amps
      min_amplitude := amp60_min amps
      std_deviation_sq := amp60_std_deviation_sq amps
      amplitude_range := amp60_max amps - amp60_min amps }

/-- Bucket membership test of `calculate_amplitude_distribution`
(`振幅平均60.py` line 210): `min_val <= amp < max_val`, where an absent upper
bound models `float('inf')` (every finite value is below it). -/
def inBucket (lo : ℚ) (hi : Option ℚ) (a : ℚ) : Bool :=
  decide (lo ≤ a) && (match hi with | some h => decide (a < h) | none => true)

/-- Count of amplitudes falling in one bucket (`振幅平均60.py` line 210). -/
def bucketCount (lo : ℚ) (hi : Option ℚ) (amps : List ℚ) : ℕ :=
  amps.countP (inBucket lo hi)

/-- Percentage of one bucket (`振幅平均60.py` line 211):
`count / total * 100` when `total > 0`, else `0`. -/
def bucketPercentage (count total : ℕ) : ℚ :=
  if 0 < total then (count : ℚ) / total * 100 else 0

/-- The bucket loop of `calculate_amplitude_distribution` (`振幅平均60.py`
lines 209–215), parametric in the `ranges` list it iterates: for each
`(lo, hi)` bucket, the pair (count, percentage). -/
def distribution_over (ranges : List (ℚ × Option ℚ)) (amps : List ℚ) : List (ℕ × ℚ) :=
  ranges.map fun r => (bucketCount r.1 r.2 amps, bucketPercentage (bucketCount r.1 r.2 amps) amps.length)

/-- The hard-coded `ranges` of `calculate_amplitude_distribution`
(`振幅平均60.py` lines 197–204); `none` is the `float('inf')` upper bound. -/
def amp60_ranges : List (ℚ × Option ℚ) :=
  [(0, some 1), (1, some 2), (2, some 3), (3, some 5), (5, some 10), (10, none)]

/-- `calculate_amplitude_distribution` (`振幅平均60.py` lines 191–217):
empty input gives the empty mapping, otherwise the count/percentage pair for
each of the six hard-coded buckets. -/
def amp60_calculate_amplitude_distribution (amps : List ℚ) : List (ℕ × ℚ) :=
  if amps = [] then [] else distribution_over amp60_ranges amps

/-- `VOLUME_MULTIPLIER` of `11bot.py`, line 11. -/
def VOLUME_MULTIPLIER : ℚ := 2

/-- `PERCENT_CHANGE_THRESHOLD` of `11bot.py`, line 12. -/
def PERCENT_CHANGE_THRESHOLD : ℚ := 3

/-- The volumes of all bars but the last, `11bot.py` line 35. -/
def bot_volumes (ks : List Kline) : List ℚ :=
  ks.dropLast.map (·.volume)

/-- The volume of the last bar, `11bot.py` line 36. -/
def bot_last_volume (ks : List Kline) : ℚ :=
  (ks.getLastD default).volume

/-- The average volume over all bars but the last, `11bot.py` line 37. -/
def bot_avg_volume (ks : List Kline) : ℚ :=
  (bot_volumes ks).sum / (bot_volumes ks).length

/-- Percent change of the last bar, `11bot.py` lines 40–42 (unguarded in the
source: a zero open price raises `ZeroDivisionError` there, handled in
`process_symbol` below). -/
def bot_percent_change (ks : List Kline) : ℚ :=
  ((ks.getLastD default).close_price - (ks.getLastD default).open_price) / (ks.getLastD default).open_price * 100

/-- One dispatched Telegram message of `monitor_market` (`11bot.py`
lines 48–57), carrying the symbol and the triggering values. -/
inductive Notification where
  | volume_surge (symbol : String) (last avg : ℚ)
  | price_move (symbol : String) (pc : ℚ)
  | funding_anomaly (symbol : String) (fr : ℚ)
deriving DecidableEq

/-- Environment for one symbol in one cycle: the outcome of `get_klines`
and of `get_funding_rate` (`none` = raised request error). -/
structure FetchResult where
  klines : Option (List Kline)
  funding : Option ℚ

/-- The body of the per-symbol `try` block of `monitor_market` (`11bot.py`
lines 33–63).  Any raised exception — fetch failure, `klines[-1]` on an empty
payload, the `sum/len` or percent-change `ZeroDivisionError`, a funding-rate
fetch failure — is caught by the bare `except` and yields no notifications;
otherwise the three threshold checks each dispatch one message. -/
def process_symbol (symbol : String) (r : FetchResult) : List Notification :=
  match r.klines with
  | none => []
  | some ks =>
    if ks.length < 2 then [] else
    if (ks.getLastD default).open_price = 0 then [] else
    match r.funding with
    | none => []
    | some fr =>
      (if bot_avg_volume ks * VOLUME_MULTIPLIER < bot_last_volume ks then
        [.volume_surge symbol (bot_last_volume ks) (bot_avg_volume ks)] else []) ++
      (if PERCENT_CHANGE_THRESHOLD < |bot_percent_change ks| then
        [.price_move symbol (bot_percent_change ks)] else []) ++
      (if 1 / 10 < |fr| then [.funding_anomaly symbol fr] else [])

/-- One full pass of the `for symbol in SYMBOLS` loop of `monitor_market`
(`11bot.py` lines 32–63): the symbols are processed strictly in order, each
exactly once, and the dispatched notifications are concatenated. -/
def runCycle (symbols : List String) (fetch : String → FetchResult) : List Notification :=
  (symbols.map fun s => process_symbol s (fetch s)).flatten

/-- Finitely many iterations of the outer `while True` loop of
`monitor_market` (`11bot.py` lines 31–65); each cycle sees that cycle's fetch
environment and nothing else — the loop body holds no variable that survives
an iteration. -/
def runCycles (symbols : List String) (fetches : List (String → FetchResult)) : List Notification :=
  (fetches.map fun f => runCycle symbols f).flatten

/-- Modelled from the spec (§4.2 MetricEngine): `volume_ratio(window) =
last_bar.volume / average_volume(all_but_last)`, defined as `0` when the
average is `0`.  `monitor_market` in `11bot.py` defines no such function —
this definition follows the spec's words, for comparison with the code's
direct threshold test. -/
def volume_ratio_spec (ks : List Kline) : ℚ :=
  if bot_avg_volume ks = 0 then 0 else bot_last_volume ks / bot_avg_volume ks

/-- Occurrence count of one notification in a dispatch list. -/
def countN (n : Notification) (l : List Notification) : ℕ :=
  l.countP fun m => decide (m = n)

/-- Concrete down bar of the spec's `down_only` example:
`{open:100, high:105, low:90, close:95}`. -/
def barDown : Kline :=
  { open_time := 0, open_price := 100, high_price := 105, low_price := 90, close_price := 95, volume := 1 }

/-- Concrete bullish bar of the spec's exclusion example:
`{open:100, high:110, low:98, close:105}`. -/
def barUp : Kline :=
  { open_time := 0, open_price := 100, high_price := 110, low_price := 98, close_price := 105, volume := 1 }

/-- Concrete bar realising the spec's range example `{high:110, low:100}`
with `open = low = 100`. -/
def barRange : Kline :=
  { open_time := 0, open_price := 100, high_price := 110, low_price := 100, close_price := 105, volume := 1 }

/-- Concrete bar with `open ≠ low` (open 105, high 110, low 100, close 107),
well-formed per the bar invariant. -/
def barMixed : Kline :=
  { open_time := 0, open_price := 105, high_price := 110, low_price := 100, close_price := 107, volume := 1 }

/-- Concrete bar with a zero open price (and zero low, keeping
`high ≥ close ≥ low` intact). -/
def barZeroOpen : Kline :=
  { open_time := 0, open_price := 0, high_price := 110, low_price := 0, close_price := 5, volume := 1 }

/-- Flat bar carrying a given volume. -/
def mkVolBar (v : ℚ) : Kline :=
  { open_time := 0, open_price := 100, high_price := 101, low_price := 99, close_price := 100, volume := v }

/-- The spec's volume-ratio window: 19 bars with volume 10, then a last bar
with volume 25. -/
def window19 : List Kline :=
  List.replicate 19 (mkVolBar 10) ++ [mkVolBar 25]

/-- A window whose first 19 bars all have volume 0 and whose last bar has
volume 5: the averaged-volume denominator is 0. -/
def windowZero : List Kline :=
  List.replicate 19 (mkVolBar 0) ++ [mkVolBar 5]

lemma mem_insertDescBy (key : KlineResult → ℚ) (x : KlineResult) (l : List KlineResult)
    (a : KlineResult) : a ∈ insertDescBy key x l ↔ a = x ∨ a ∈ l := by
  induction l with
  | nil => simp [insertDescBy]
  | cons y ys ih =>
    by_cases h : key y ≤ key x
    · simp [insertDescBy, h]
    · simp [insertDescBy, h, ih]
      tauto

lemma mem_sortDescBy (key : KlineResult → ℚ) (l : List KlineResult) (a : KlineResult) :
    a ∈ sortDescBy key l ↔ a ∈ l := by
  induction l with
  | nil => simp [sortDescBy]
  | cons x xs ih => simp [sortDescBy, mem_insertDescBy, ih]

lemma bot_volumes_concat (l : List Kline) (k : Kline) :
    bot_volumes (l ++ [k]) = l.map (·.volume) := by
  simp [bot_volumes]

lemma bot_last_volume_concat (l : List Kline) (k : Kline) :
    bot_last_volume (l ++ [k]) = k.volume := by
  simp [bot_last_volume]

lemma window19_avg : bot_avg_volume window19 = 10 := by
  simp only [bot_avg_volume, window19, bot_volumes_concat, List.map_replicate, mkVolBar,
    List.sum_replicate, List.length_replicate, nsmul_eq_mul]
  norm_num

lemma window19_last : bot_last_volume window19 = 25 := by
  simp only [window19, bot_last_volume_concat, mkVolBar]

lemma windowZero_avg : bot_avg_volume windowZero = 0 := by
  simp only [bot_avg_volume, windowZero, bot_volumes_concat, List.map_replicate, mkVolBar,
    List.sum_replicate, List.length_replicate, nsmul_eq_mul]
  norm_num

lemma windowZero_last : bot_last_volume windowZero = 5 := by
  simp only [windowZero, bot_last_volume_concat, mkVolBar]

lemma window19_getLast : window19.getLastD default = mkVolBar 25 := by
  simp only [window19, List.getLastD_concat]

lemma windowZero_getLast : windowZero.getLastD default = mkVolBar 5 := by
  simp only [windowZero, List.getLastD_concat]

lemma process_window19 (s : String) :
    process_symbol s ⟨some window19, some 0⟩ = [.volume_surge s 25 10] := by
  have hpc : bot_percent_change window19 = 0 := by
    rw [bot_percent_change, window19_getLast]; norm_num [mkVolBar]
  have hlen : ¬ (window19.length < 2) := by
    simp only [window19, List.length_append, List.length_replicate]; norm_num
  have hopen : ¬ ((window19.getLastD default).open_price = 0) := by
    rw [window19_getLast]; norm_num [mkVolBar]
  have hsurge : bot_avg_volume window19 * VOLUME_MULTIPLIER < bot_last_volume window19 := by
    rw [window19_avg, window19_last]; norm_num [VOLUME_MULTIPLIER]
  have hpc2 : ¬ (PERCENT_CHANGE_THRESHOLD < |bot_percent_change window19|) := by
    rw [hpc]; norm_num [PERCENT_CHANGE_THRESHOLD]
  have hfr : ¬ ((1 : ℚ) / 10 < |(0 : ℚ)|) := by norm_num
  simp only [process_symbol, if_neg hlen, if_neg hopen, if_pos hsurge, if_neg hpc2, if_neg hfr,
    window19_avg, window19_last, List.append_nil, List.nil_append]
  norm_num [VOLUME_MULTIPLIER]

lemma process_windowZero (s : String) :
    process_symbol s ⟨some windowZero, some 0⟩ = [.volume_surge s 5 0] := by
  have hpc : bot_percent_change windowZero = 0 := by
    rw [bot_percent_change, windowZero_getLast]; norm_num [mkVolBar]
  have hlen : ¬ (windowZero.length < 2) := by
    simp only [windowZero, List.length_append, List.length_replicate]; norm_num
  have hopen : ¬ ((windowZero.getLastD default).open_price = 0) := by
    rw [windowZero_getLast]; norm_num [mkVolBar]
  have hsurge : bot_avg_volume windowZero * VOLUME_MULTIPLIER < bot_last_volume windowZero := by
    rw [windowZero_avg, windowZero_last]; norm_num [VOLUME_MULTIPLIER]
  have hpc2 : ¬ (PERCENT_CHANGE_THRESHOLD < |bot_percent_change windowZero|) := by
    rw [hpc]; norm_num [PERCENT_CHANGE_THRESHOLD]
  have hfr : ¬ ((1 : ℚ) / 10 < |(0 : ℚ)|) := by norm_num
  simp only [process_symbol, if_neg hlen, if_neg hopen, if_pos hsurge, if_neg hpc2, if_neg hfr,
    windowZero_avg, windowZero_last, List.append_nil, List.nil_append]
  norm_num [VOLUME_MULTIPLIER]

lemma ZF1_bullish_skipped (mode : AmplitudeMode) :
    ZF1_analyze_klines (some [barUp]) mode = [] := by
  have h : ¬ (barUp.close_price < barUp.open_price) := by norm_num [barUp]
  simp [ZF1_analyze_klines, List.filter, sortDescBy, h, barUp]

lemma bucket_indicator_sum (a : ℚ) (ha : 0 ≤ a) :
    ((if inBucket 0 (some 1) a then 1 else 0) + (if inBucket 1 (some 2) a then 1 else 0) +
      (if inBucket 2 (some 3) a then 1 else 0) + (if inBucket 3 (some 5) a then 1 else 0) +
      (if inBucket 5 (some 10) a then 1 else 0) + (if inBucket 10 none a then 1 else 0) : ℕ) = 1 := by
  simp only [inBucket, Bool.and_eq_true, decide_eq_true_eq, Bool.and_true]
  rcases lt_or_le a 1 with h1 | h1
  · rw [if_pos ⟨ha, h1⟩, if_neg (by rintro ⟨h, _⟩; linarith), if_neg (by rintro ⟨h, _⟩; linarith),
      if_neg (by rintro ⟨h, _⟩; linarith), if_neg (by rintro ⟨h, _⟩; linarith),
      if_neg (by intro h; linarith)]
  · rcases lt_or_le a 2 with h2 | h2
    · rw [if_neg (by rintro ⟨_, h⟩; linarith), if_pos ⟨h1, h2⟩,
        if_neg (by rintro ⟨h, _⟩; linarith), if_neg (by rintro ⟨h, _⟩; linarith),
        if_neg (by rintro ⟨h, _⟩; linarith), if_neg (by intro h; linarith)]
    · rcases lt_or_le a 3 with h3 | h3
      · rw [if_neg (by rintro ⟨_, h⟩; linarith), if_neg (by rintro ⟨_, h⟩; linarith),
          if_pos ⟨h2, h3⟩, if_neg (by rintro ⟨h, _⟩; linarith),
          if_neg (by rintro ⟨h, _⟩; linarith), if_neg (by intro h; linarith)]
      · rcases lt_or_le a 5 with h5 | h5
        · rw [if_neg (by rintro ⟨_, h⟩; linarith), if_neg (by rintro ⟨_, h⟩; linarith),
            if_neg (by rintro ⟨_, h⟩; linarith), if_pos ⟨h3, h5⟩,
            if_neg (by rintro ⟨h, _⟩; linarith), if_neg (by intro h; linarith)]
        · rcases lt_or_le a 10 with h10 | h10
          · rw [if_neg (by rintro ⟨_, h⟩; linarith), if_neg (by rintro ⟨_, h⟩; linarith),
              if_neg (by rintro ⟨_, h⟩; linarith), if_neg (by rintro ⟨_, h⟩; linarith),
              if_pos ⟨h5, h10⟩, if_neg (by intro h; linarith)]
          · rw [if_neg (by rintro ⟨_, h⟩; linarith), if_neg (by rintro ⟨_, h⟩; linarith),
              if_neg (by rintro ⟨_, h⟩; linarith), if_neg (by rintro ⟨_, h⟩; linarith),
              if_neg (by rintro ⟨_, h⟩; linarith), if_pos h10]

lemma amp60_counts_sum : ∀ (amps : List ℚ), (∀ a ∈ amps, 0 ≤ a) →
    bucketCount 0 (some 1) amps + bucketCount 1 (some 2) amps + bucketCount 2 (some 3) amps +
      bucketCount 3 (some 5) amps + bucketCount 5 (some 10) amps + bucketCount 10 none amps =
      amps.length := by
  intro amps
  induction amps with
  | nil => intro _; rfl
  | cons a l ih =>
    intro h
    have ha : 0 ≤ a := h a (List.mem_cons_self a l)
    have hl : ∀ x ∈ l, 0 ≤ x := fun x hx => h x (List.mem_cons_of_mem a hx)
    have hb := bucket_indicator_sum a ha
    have hi := ih hl
    simp only [bucketCount, List.countP_cons, List.length_cons] at hi hb ⊢
    omega

lemma amp60_dist_sum (amps : List ℚ) (h0 : amps ≠ []) (h : ∀ a ∈ amps, 0 ≤ a) :
    ((amp60_calculate_amplitude_distribution amps).map Prod.snd).sum = 100 := by
  have hlen : 0 < amps.length := List.length_pos.mpr h0
  have hc := amp60_counts_sum amps h
  have hn : (amps.length : ℚ) ≠ 0 := Nat.cast_ne_zero.mpr hlen.ne'
  simp only [amp60_calculate_amplitude_distribution, if_neg h0, distribution_over, amp60_ranges,
    List.map_cons, List.map_nil, List.sum_cons, List.sum_nil, bucketPercentage, if_pos hlen]
  have hcq : ((bucketCount 0 (some 1) amps : ℚ) + bucketCount 1 (some 2) amps +
      bucketCount 2 (some 3) amps + bucketCount 3 (some 5) amps + bucketCount 5 (some 10) amps +
      bucketCount 10 none amps) = (amps.length : ℚ) := by exact_mod_cast hc
  field_simp
  linarith [hcq]

/-- Claim C1, counterexample: for the bar with `open == 0` both
`zftj.py` (lines 111–115) and `ZF1.py` (line 85) silently return a change
percent of `0.0` — no error is signalled to the caller, contrary to the
claim. -/
theorem C1_zero_open_counterexample :
    zftj_change_percent barZeroOpen = 0 ∧ ZF1_change_percent barZeroOpen = 0 := by
  constructor <;> norm_num [zftj_change_percent, ZF1_change_percent, barZeroOpen]

/-- Claim C1, amended: for every bar with `open > 0`, `percent_change`
returns `(close - open) / open * 100` in both implementations; for
`open == 0` each implementation silently returns `0.0` (shown by the
counterexample) instead of signalling an error. -/
theorem C1_percent_change (k : Kline) (h : 0 < k.open_price) :
    zftj_change_percent k = (k.close_price - k.open_price) / k.open_price * 100 ∧
    ZF1_change_percent k = zftj_change_percent k := by
  simp [zftj_change_percent, ZF1_change_percent, h]

/-- Witness for C1 at the concrete bar `barDown` (`open = 100 > 0`,
`close = 95`): the formula gives `-5`. -/
theorem C1_percent_change_witness :
    0 < barDown.open_price ∧
    zftj_change_percent barDown = (barDown.close_price - barDown.open_price) / barDown.open_price * 100 ∧
    zftj_change_percent barDown = -5 := by
  have h : 0 < barDown.open_price := by norm_num [barDown]
  refine ⟨h, (C1_percent_change barDown h).1, ?_⟩
  norm_num [zftj_change_percent, barDown]

/-- Claim C2, counterexample: on the 20-bar window whose first 19 volumes
are all 0 (`windowZero`), the spec's guarded `volume_ratio` is 0, so the
"volume ratio > 2.0" rule would not fire — but `monitor_market`
(`11bot.py` lines 34–49) compares `last_volume > avg_volume * 2` directly
and dispatches the volume-surge alert.  The code has no ratio function and
no zero-average guard. -/
theorem C2_zero_average_counterexample :
    bot_avg_volume windowZero = 0 ∧
    volume_ratio_spec windowZero = 0 ∧
    ¬ (VOLUME_MULTIPLIER < volume_ratio_spec windowZero) ∧
    process_symbol "BTCUSDT" ⟨some windowZero, some 0⟩ = [.volume_surge "BTCUSDT" 5 0] := by
  have h0 := windowZero_avg
  refine ⟨h0, ?_, ?_, process_windowZero "BTCUSDT"⟩
  · simp [volume_ratio_spec, h0]
  · simp [volume_ratio_spec, h0, VOLUME_MULTIPLIER]

/-- Claim C2, amended: `monitor_market` never divides by the average
volume; it fires the surge alert iff `last_volume > avg_volume * 2`.  When
the average volume is positive this is equivalent to the ratio
`last / avg` exceeding the multiplier, and on the window of 19 bars with
volume 10 followed by a last bar with volume 25 the ratio is `5/2 = 2.5`;
when the average is 0 the alert fires iff the last volume is positive
(there is no guarded ratio of 0). -/
theorem C2_volume_ratio (ks : List Kline) (hpos : 0 < bot_avg_volume ks) :
    ((bot_avg_volume ks * VOLUME_MULTIPLIER < bot_last_volume ks) ↔
      VOLUME_MULTIPLIER < bot_last_volume ks / bot_avg_volume ks) ∧
    bot_last_volume ks / bot_avg_volume ks = volume_ratio_spec ks ∧
    bot_last_volume window19 / bot_avg_volume window19 = 5 / 2 := by
  refine ⟨?_, ?_, ?_⟩
  · rw [lt_div_iff₀ hpos, mul_comm]
  · rw [volume_ratio_spec, if_neg hpos.ne']
  · rw [window19_avg, window19_last]; norm_num

/-- Witness for C2 at the concrete window `window19`
(average 10, last 25). -/
theorem C2_volume_ratio_witness :
    0 < bot_avg_volume window19 ∧
    bot_last_volume window19 / bot_avg_volume window19 = 5 / 2 := by
  have h : 0 < bot_avg_volume window19 := by rw [window19_avg]; norm_num
  exact ⟨h, (C2_volume_ratio window19 h).2.2⟩

/-- Claim C3, counterexample: the two cited implementations of the range
amplitude disagree on the well-formed bar `barMixed`
(open 105, high 110, low 100, close 107): `zftj.py` divides by the low and
returns 10, `振幅平均60.py` divides by the OPEN and returns `200/21 ≠ 10`.
So the range amplitude is not `(high - low) / low * 100` in every
implementation of this mode. -/
theorem C3_range_amplitude_counterexample :
    zftj_amplitude barMixed = 10 ∧ ZF1_amplitude .range barMixed = 10 ∧
    amp60_amplitude barMixed = 200 / 21 ∧ ¬ (amp60_amplitude barMixed = 10) := by
  refine ⟨?_, ?_, ?_, ?_⟩ <;>
    norm_num [zftj_amplitude, ZF1_amplitude, amp60_amplitude, barMixed]

/-- Claim C3, amended: in `zftj.py` and in `ZF1.py` mode `range` the
amplitude is `(high - low) / low * 100` when `low > 0` and the guard
returns 0 when `low ≤ 0`; `振幅平均60.py` instead computes
`(high - low) / open * 100` when `open > 0` with its guard on the open
price; the implementations agree exactly when `open = low` (in particular
on the spec's `{high:110, low:100}` bar with `open = 100`, where both give
10). -/
theorem C3_range_amplitude (k : Kline) :
    (0 < k.low_price →
      zftj_amplitude k = (k.high_price - k.low_price) / k.low_price * 100 ∧
      ZF1_amplitude .range k = zftj_amplitude k) ∧
    (k.low_price ≤ 0 → zftj_amplitude k = 0 ∧ ZF1_amplitude .range k = 0) ∧
    (0 < k.open_price → amp60_amplitude k = (k.high_price - k.low_price) / k.open_price * 100) ∧
    (k.open_price ≤ 0 → amp60_amplitude k = 0) ∧
    (k.open_price = k.low_price → amp60_amplitude k = zftj_amplitude k) := by
  refine ⟨fun h => ?_, fun h => ?_, fun h => ?_, fun h => ?_, fun h => ?_⟩
  · simp [zftj_amplitude, ZF1_amplitude, h]
  · simp [zftj_amplitude, ZF1_amplitude, not_lt.mpr h]
  · simp [amp60_amplitude, h]
  · simp [amp60_amplitude, not_lt.mpr h]
  · simp [amp60_amplitude, zftj_amplitude, h]

/-- Witness for C3 at the concrete bar `barRange`
(`open = low = 100`, high 110): the low-based formula gives 10 and the
open-based implementation agrees there. -/
theorem C3_range_amplitude_witness :
    0 < barRange.low_price ∧
    zftj_amplitude barRange = (barRange.high_price - barRange.low_price) / barRange.low_price * 100 ∧
    barRange.open_price = barRange.low_price ∧
    amp60_amplitude barRange = zftj_amplitude barRange ∧
    zftj_amplitude barRange = 10 := by
  have h : 0 < barRange.low_price := by norm_num [barRange]
  have he : barRange.open_price = barRange.low_price := by norm_num [barRange]
  refine ⟨h, ((C3_range_amplitude barRange).1 h).1, he, (C3_range_amplitude barRange).2.2.2.2 he, ?_⟩
  norm_num [zftj_amplitude, barRange]

/-- Claim C4, counterexample: in `ZF1.py` the `close >= open` `continue`
(line 74) runs before the mode branch, so a bullish bar is excluded from
the result set in mode `range` as well — the exclusion is not specific to
the `down_percent` (`down_only`) mode. -/
theorem C4_bullish_excluded_in_range_mode :
    ZF1_analyze_klines (some [barUp]) .range = [] :=
  ZF1_bullish_skipped .range

/-- Claim C4, amended: every result row of `ZF1.py` `analyze_klines` comes
from a bar with `close < open` — in BOTH modes, not only `down_only`; for a
down bar with `open > 0` the `down_percent` amplitude is
`(open - low) / open * 100`, and on the bar
`{open:100, high:105, low:90, close:95}` the single result has
amplitude 10. -/
theorem C4_down_only (ks : List Kline) (mode : AmplitudeMode) (r : KlineResult)
    (hr : r ∈ ZF1_analyze_klines (some ks) mode) :
    r.close_price < r.open_price ∧
    (∀ k : Kline, k.close_price < k.open_price → 0 < k.open_price →
      ZF1_amplitude .down_percent k = (k.open_price - k.low_price) / k.open_price * 100) ∧
    ZF1_analyze_klines (some [barDown]) .down_percent = [ZF1_result .down_percent 0 barDown] ∧
    (ZF1_result .down_percent 0 barDown).amplitude = 10 := by
  refine ⟨?_, fun k _ hk => by simp [ZF1_amplitude, hk], ?_, ?_⟩
  · rw [ZF1_analyze_klines] at hr
    by_cases he : ks.isEmpty
    · simp [he] at hr
    · rw [if_neg he, mem_sortDescBy] at hr
      obtain ⟨p, hp, rfl⟩ := List.mem_map.mp hr
      have := (List.mem_filter.mp hp).2
      have hlt : p.2.close_price < p.2.open_price := by exact_mod_cast of_decide_eq_true this
      simpa [ZF1_result] using hlt
  · have h : barDown.close_price < barDown.open_price := by norm_num [barDown]
    simp [ZF1_analyze_klines, List.filter, sortDescBy, insertDescBy, h, barDown, List.enum]
  · norm_num [ZF1_result, ZF1_amplitude, barDown]

/-- Witness for C4: the single result produced for `barDown` in
`down_percent` mode is a down row (`close 95 < open 100`). -/
theorem C4_down_only_witness :
    (ZF1_result .down_percent 0 barDown) ∈ ZF1_analyze_klines (some [barDown]) .down_percent ∧
    (ZF1_result .down_percent 0 barDown).close_price < (ZF1_result .down_percent 0 barDown).open_price := by
  have hmem : (ZF1_result .down_percent 0 barDown) ∈ ZF1_analyze_klines (some [barDown]) .down_percent := by
    have h : barDown.close_price < barDown.open_price := by norm_num [barDown]
    simp [ZF1_analyze_klines, List.filter, sortDescBy, insertDescBy, h, barDown, List.enum]
  exact ⟨hmem, (C4_down_only [barDown] .down_percent _ hmem).1⟩

/-- Claim C5, confirmed: within one cycle of `monitor_market`, a symbol
whose fetch fails contributes nothing and aborts nothing — if A's fetch
raises and B's data triggers exactly one rule, the cycle's complete output
is that one notification; each symbol is processed exactly once per cycle
(A reappears only in the next cycle's pass). -/
theorem C5_failure_isolation (fetch : String → FetchResult) (A B : String) (n : Notification)
    (hA : (fetch A).klines = none) (hB : process_symbol B (fetch B) = [n]) :
    process_symbol A (fetch A) = [] ∧ runCycle [A, B] fetch = [n] := by
  have h1 : process_symbol A (fetch A) = [] := by
    rw [process_symbol, hA]
  exact ⟨h1, by simp [runCycle, h1, hB]⟩

/-- Concrete per-symbol environment for the C5 witness: symbol "A" fails
to fetch, every other symbol gets `window19` and a zero funding rate. -/
def fetchC5 : String → FetchResult :=
  fun s => if s = "A" then ⟨none, none⟩ else ⟨some window19, some 0⟩

/-- Witness for C5 on the concrete cycle over ["A", "B"] with `fetchC5`:
exactly the one volume-surge notification for B is dispatched. -/
theorem C5_failure_isolation_witness :
    (fetchC5 "A").klines = none ∧
    process_symbol "B" (fetchC5 "B") = [.volume_surge "B" 25 10] ∧
    runCycle ["A", "B"] fetchC5 = [.volume_surge "B" 25 10] := by
  have hA : (fetchC5 "A").klines = none := by simp [fetchC5]
  have hB : process_symbol "B" (fetchC5 "B") = [.volume_surge "B" 25 10] := by
    have : fetchC5 "B" = ⟨some window19, some 0⟩ := by simp [fetchC5]
    rw [this, process_window19]
  exact ⟨hA, hB, (C5_failure_isolation fetchC5 "A" "B" _ hA hB).2⟩

/-- Claim C9, confirmed: the monitor loop keeps no state across cycles —
the notifications of a run are the concatenation of each cycle's
notifications, each a pure function of that cycle's fetched data, so a
condition that fires a notification in one cycle fires it again when the
next cycle sees the same data: two consecutive identical cycles dispatch
it at least twice (no suppression of repeats). -/
theorem C9_stateless_across_cycles (symbols : List String) (f : String → FetchResult)
    (n : Notification) (h : n ∈ runCycle symbols f) :
    runCycles symbols [f, f] = runCycle symbols f ++ runCycle symbols f ∧
    countN n (runCycles symbols [f, f]) = 2 * countN n (runCycle symbols f) ∧
    2 ≤ countN n (runCycles symbols [f, f]) := by
  have he : runCycles symbols [f, f] = runCycle symbols f ++ runCycle symbols f := by
    simp [runCycles]
  have hp : 0 < countN n (runCycle symbols f) :=
    List.countP_pos_iff.mpr ⟨n, h, by simp⟩
  have hc : countN n (runCycles symbols [f, f]) = 2 * countN n (runCycle symbols f) := by
    rw [he, countN, List.countP_append]
    rw [countN]
    omega
  exact ⟨he, hc, by omega⟩

/-- Witness for C9 on the concrete one-symbol cycle that fires the
volume-surge rule: two consecutive cycles over the same data dispatch the
notification twice. -/
theorem C9_stateless_witness :
    (Notification.volume_surge "B" 25 10) ∈
      runCycle ["B"] (fun _ => ⟨some window19, some 0⟩) ∧
    2 ≤ countN (.volume_surge "B" 25 10)
      (runCycles ["B"] [fun _ => ⟨some window19, some 0⟩, fun _ => ⟨some window19, some 0⟩]) := by
  have hmem : (Notification.volume_surge "B" 25 10) ∈
      runCycle ["B"] (fun _ => ⟨some window19, some 0⟩) := by
    simp [runCycle, process_window19]
  exact ⟨hmem, (C9_stateless_across_cycles ["B"] _ _ hmem).2.2⟩

/-- Claim C10, confirmed: a failed fetch (`None`) makes `analyze_klines`
return the empty list in both `zftj.py` and `ZF1.py`, and the same empty
list is returned for a successful fetch with no qualifying bars (an empty
payload for `zftj.py`; a payload with only bullish bars for `ZF1.py`) —
at the public interface the two cases are indistinguishable. -/
theorem C10_fetch_failure_empty (mode : AmplitudeMode) :
    zftj_analyze_klines none = [] ∧
    ZF1_analyze_klines none mode = [] ∧
    zftj_analyze_klines (some []) = [] ∧
    ZF1_analyze_klines (some [barUp]) mode = [] :=
  ⟨rfl, rfl, rfl, ZF1_bullish_skipped mode⟩

/-- Claim C6, confirmed: the distribution loop of
`calculate_amplitude_distribution` counts each amplitude into the
half-open bucket `[lo, hi)` (the last bucket unbounded above) and reports
`count / total * 100` per bucket; over any non-empty list of non-negative
amplitudes the percentages sum to exactly 100 (and every amplitude the
script produces is non-negative for a well-formed bar); instantiating the
same counting rule on the buckets `[(0,1), (1,2), (2,5), (5,∞)]` and the
values `[0.5, 1.5, 1.5, 6.0]` gives the counts `1, 2, 0, 1` with
percentages `25, 50, 0, 25`. -/
theorem C6_amplitude_distribution :
    (∀ amps : List ℚ, amps ≠ [] → (∀ a ∈ amps, 0 ≤ a) →
      ((amp60_calculate_amplitude_distribution amps).map Prod.snd).sum = 100) ∧
    distribution_over [(0, some 1), (1, some 2), (2, some 5), (5, none)]
      [1 / 2, 3 / 2, 3 / 2, 6] = [(1, 25), (2, 50), (0, 0), (1, 25)] ∧
    (∀ k : Kline, k.low_price ≤ k.high_price → 0 ≤ amp60_amplitude k) := by
  refine ⟨amp60_dist_sum, ?_, ?_⟩
  · simp only [distribution_over, bucketCount, inBucket, bucketPercentage, List.map_cons,
      List.map_nil, List.countP_cons, List.countP_nil, List.length_cons, List.length_nil,
      Bool.and_eq_true, decide_eq_true_eq, Bool.and_true]
    norm_num
  · intro k h
    rw [amp60_amplitude]
    by_cases ho : 0 < k.open_price
    · rw [if_pos ho]
      have : 0 ≤ k.high_price - k.low_price := sub_nonneg.mpr h
      positivity
    · rw [if_neg ho]

/-- Witness for C6 on the concrete amplitude list `[0.5, 1.5, 1.5, 6]`:
the script's own six-bucket distribution sums to 100 percent. -/
theorem C6_amplitude_distribution_witness :
    ([1 / 2, 3 / 2, 3 / 2, 6] : List ℚ) ≠ [] ∧
    (∀ a ∈ ([1 / 2, 3 / 2, 3 / 2, 6] : List ℚ), 0 ≤ a) ∧
    ((amp60_calculate_amplitude_distribution [1 / 2, 3 / 2, 3 / 2, 6]).map Prod.snd).sum = 100 := by
  have h0 : ([1 / 2, 3 / 2, 3 / 2, 6] : List ℚ) ≠ [] := by simp
  have h1 : ∀ a ∈ ([1 / 2, 3 / 2, 3 / 2, 6] : List ℚ), 0 ≤ a := by
    intro a ha
    simp only [List.mem_cons, List.not_mem_nil, or_false] at ha
    rcases ha with rfl | rfl | rfl | rfl <;> norm_num
  exact ⟨h0, h1, C6_amplitude_distribution.1 _ h0 h1⟩

/-- Claim C7, confirmed: the summary block of `calculate_amplitude`
computes the standard mean, median, max, min, (sample) standard deviation
and max-min range; over `[1, 2, 3]` it reports mean 2, median 2, max 3,
min 1, squared standard deviation 1 (stdev 1) and range 2, and over any
single-element list the guarded standard deviation is 0 — defined, not an
error. -/
theorem C7_summary_statistics :
    amp60_summary [1, 2, 3] =
      some ⟨3, 2, 2, 3, 1, 1, 2⟩ ∧
    (∀ x : ℚ, amp60_summary [x] = some ⟨1, x, x, x, x, 0, 0⟩) := by
  constructor
  · rw [amp60_summary, if_neg (by simp : ¬ (([1, 2, 3] : List ℚ) = []))]
    norm_num [amp60_mean, amp60_median, amp60_max, amp60_min, amp60_std_deviation_sq,
      sortAsc, insertAsc, AmplitudeSummary.mk.injEq]
  · intro x
    rw [amp60_summary, if_neg (by simp : ¬ (([x] : List ℚ) = []))]
    simp [amp60_mean, amp60_median, amp60_max, amp60_min, amp60_std_deviation_sq,
      sortAsc, insertAsc, AmplitudeSummary.mk.injEq]

/-- Claim C8, counterexample: only `ZF1.py` clamps the requested bar
count; `zftj.py` and `振幅平均60.py` pass it to the data source unchanged —
a request for 1400 bars is sent as 1400, outside `[1, 1000]` (indeed
`振幅平均60.py`'s own CLI default is `limit=1400`). -/
theorem C8_no_clamp_counterexample :
    amp60_request_limit 1400 = 1400 ∧ zftj_request_limit 1400 = 1400 ∧
    ¬ (amp60_request_limit 1400 ≤ 1000) := by
  refine ⟨rfl, rfl, ?_⟩
  rw [amp60_request_limit]
  omega

/-- Claim C8, amended: `ZF1.py`'s `get_kline_data` clamps the requested
limit into `[1, 1000]` via `min(max(1, limit), 1000)`, but `zftj.py` and
`振幅平均60.py` issue the caller's limit unchanged. -/
theorem C8_request_limit (l : Int) :
    1 ≤ ZF1_request_limit l ∧ ZF1_request_limit l ≤ 1000 ∧
    zftj_request_limit l = l ∧ amp60_request_limit l = l := by
  refine ⟨?_, ?_, rfl, rfl⟩
  · rw [ZF1_request_limit]
    exact le_min (le_max_left 1 l) (by norm_num)
  · rw [ZF1_request_limit]
    exact min_le_right _ _
